import Mathlib

/-!
Verification of the prescription-analyzer specification against a shallow
embedding of `prescription_analyzer.py`.

The embedding translates the program's pure logic into Lean:

* ASCII character classes and string utilities stand in for Python's
  `str.lower`, `str.strip`, `str.upper` and the character classes of the
  `re` module (`\s`, `\d`, `\w`).  The program's inputs are ASCII text, so
  the ASCII reading of these operations is faithful on the relevant inputs.
* The two concrete dosage regular expressions and the word-boundary
  searches of `find_drugs_super_flexible` are implemented as deterministic
  scanners.  Each regex used by the program is a sequence of literals and
  character-class repetitions over pairwise disjoint classes, plus an
  ordered alternation for the dose unit, so Python's leftmost,
  greedy-with-backtracking search is equivalent to the deterministic
  leftmost scan implemented here (the unit alternation of the second dose
  pattern is given its full ordered-choice semantics, including the
  continuation check against the trailing drug literal).
* Python dicts become insertion-ordered association lists with unique
  keys; dict assignment replaces in place or appends, and `.get` is
  `find?` on the key.
* The OCR engines are external collaborators; their outputs are modeled as
  oracle parameters (`OcrEnv`), with `none` standing for an exception
  raised inside the `try` blocks of the corresponding wrapper and `some s`
  for a returned string.  A Python value that may be `None` or a string is
  modeled by `PyVal`.
-/

set_option maxRecDepth 40000

namespace PrescriptionAnalyzer

/-! ## Character classes and string primitives -/

/-- ASCII lowercasing of one character (Python `str.lower` on ASCII text). -/
def asciiLower (c : Char) : Char :=
  if 'A' ≤ c && c ≤ 'Z' then Char.ofNat (c.toNat + 32) else c

/-- Lowercase a character list. -/
def lowerL (s : List Char) : List Char := s.map asciiLower

/-- Python `\s` (ASCII): space, tab, newline, carriage return, form feed, vertical tab. -/
def wsp (c : Char) : Bool :=
  c == ' ' || c == '\t' || c == '\n' || c == '\r' || c == '\x0c' || c == '\x0b'

/-- Python `\d` (ASCII). -/
def digitC (c : Char) : Bool := '0' ≤ c && c ≤ '9'

/-- Python `\w` (ASCII): letters, digits, underscore. -/
def wordC (c : Char) : Bool :=
  ('a' ≤ c && c ≤ 'z') || ('A' ≤ c && c ≤ 'Z') || digitC c || c == '_'

/-- Python `str.strip`: drop leading and trailing whitespace. -/
def stripL (t : List Char) : List Char :=
  ((t.dropWhile wsp).reverse.dropWhile wsp).reverse

/-- `str.strip` on `String`. -/
def stripS (s : String) : String := String.mk (stripL s.toList)

/-- ASCII uppercasing of one character (Python `str.upper` on ASCII text). -/
def asciiUpper (c : Char) : Char :=
  if 'a' ≤ c && c ≤ 'z' then Char.ofNat (c.toNat - 32) else c

/-- `str.upper` on `String` (ASCII). -/
def upperS (s : String) : String := String.mk (s.toList.map asciiUpper)

/-- `litAt pat t`: the literal `pat` matches at the front of `t`. -/
def litAt : List Char → List Char → Bool
  | [], _ => true
  | _ :: _, [] => false
  | p :: ps, c :: cs => p == c && litAt ps cs

/-- The literal `pat` occurs in `t` starting at index `i`. -/
def occursAt (pat t : List Char) (i : Nat) : Bool := litAt pat (t.drop i)

/-- The literal `pat` occurs somewhere in `t` (the regex `pat` with `re.escape`). -/
def occursAnywhere (pat t : List Char) : Bool :=
  (List.range (t.length + 1)).any (occursAt pat t)

/-- Is the character at index `i` of `t` a word character (out of range: no)? -/
def wordAt (t : List Char) (i : Nat) : Bool :=
  match t.drop i with
  | c :: _ => wordC c
  | [] => false

/-- The regex `\b` holds between positions `i-1` and `i` of `t`. -/
def boundAt (t : List Char) (i : Nat) : Bool :=
  (if i = 0 then false else wordAt t (i - 1)) != wordAt t i

/-- The regex `\b pat \b` matches in `t` starting at index `i`. -/
def wordOccursAt (pat t : List Char) (i : Nat) : Bool :=
  occursAt pat t i && boundAt t i && boundAt t (i + pat.length)

/-- The regex `\b pat \b` matches somewhere in `t`. -/
def occursWholeWord (pat t : List Char) : Bool :=
  (List.range (t.length + 1)).any (wordOccursAt pat t)

/-- The regex `\b pat` (word start only) matches somewhere in `t`. -/
def occursFrontWord (pat t : List Char) : Bool :=
  (List.range (t.length + 1)).any (fun i => occursAt pat t i && boundAt t i)

/-!  ## The matcher's drug-presence test

`find_drugs_super_flexible` tries, in order, the three patterns
`\b name \b`, `\b name`, and `name` (each with `re.escape(name)`), and
treats the drug as found if any of them matches (source lines 990-1001). -/

/-- The "Try multiple pattern variations" presence test of the source. -/
def foundDrug (pat t : List Char) : Bool :=
  occursWholeWord pat t || occursFrontWord pat t || occursAnywhere pat t

/-! ## Dose amount scanning

The two dosage regexes (source lines 1005-1008) are

* pattern 1: `name \s* [:\-]* \s* (\d+(?:\.\d+)?) \s* (unit)?` with
  units `mg|ml|mcg|units|gm|g|tab|tabs|cap|caps|unit`;
* pattern 2: `(\d+(?:\.\d+)?) \s* (unit) \s* name` with
  units `mg|ml|mcg|units|gm|g|tab|tabs|cap|caps`.
-/

/-- Match `\d+(?:\.\d+)?` at the front of `t`; return the matched text and the rest. -/
def numberAt (t : List Char) : Option (List Char × List Char) :=
  let ds := t.takeWhile digitC
  if ds.isEmpty then none
  else
    let r := t.dropWhile digitC
    match r with
    | '.' :: r2 =>
      let fs := r2.takeWhile digitC
      if fs.isEmpty then some (ds, r)
      else some (ds ++ '.' :: fs, r2.dropWhile digitC)
    | _ => some (ds, r)

/-- Units of the first dosage pattern, in alternation order. -/
def unitsA : List String :=
  ["mg", "ml", "mcg", "units", "gm", "g", "tab", "tabs", "cap", "caps", "unit"]

/-- Units of the second dosage pattern, in alternation order. -/
def unitsB : List String :=
  ["mg", "ml", "mcg", "units", "gm", "g", "tab", "tabs", "cap", "caps"]

/-- Ordered-alternation match of a unit at the front of `t` (nothing follows
the unit group in pattern 1, so the first alternative that matches wins). -/
def firstUnitAt (us : List String) (t : List Char) : Option String :=
  us.find? (fun u => litAt u.toList t)

/-- Attempt dosage pattern 1 for drug literal `d` at index `i` of `t`. Returns
(captured amount, captured unit if the optional unit group matched). -/
def matchP1At (d t : List Char) (i : Nat) : Option (String × Option String) :=
  if occursAt d t i then
    let r0 := (t.drop i).drop d.length
    let r1 := r0.dropWhile wsp
    let r2 := r1.dropWhile (fun c => c == ':' || c == '-')
    let r3 := r2.dropWhile wsp
    match numberAt r3 with
    | none => none
    | some (amt, r4) =>
      let r5 := r4.dropWhile wsp
      some (String.mk amt, firstUnitAt unitsA r5)
  else none

/-- `re.search` of dosage pattern 1: leftmost starting index wins. -/
def searchP1 (d t : List Char) : Option (String × Option String) :=
  (List.range (t.length + 1)).findSome? (matchP1At d t)

/-- Attempt dosage pattern 2 for drug literal `d` at index `i` of `t`.  The
unit alternation carries the continuation `\s* name`, so an alternative that
matches locally but whose continuation fails is skipped (e.g. `tab` vs `tabs`). -/
def matchP2At (d t : List Char) (i : Nat) : Option (String × String) :=
  match numberAt (t.drop i) with
  | none => none
  | some (amt, r1) =>
    let r2 := r1.dropWhile wsp
    unitsB.findSome? (fun u =>
      if litAt u.toList r2 then
        let r3 := (r2.drop u.length).dropWhile wsp
        if litAt d r3 then some (String.mk amt, u) else none
      else none)

/-- `re.search` of dosage pattern 2: leftmost starting index wins. -/
def searchP2 (d t : List Char) : Option (String × String) :=
  (List.range (t.length + 1)).findSome? (matchP2At d t)

/-- The dosage string built by `find_drugs_super_flexible` for a matched drug
(source lines 1010-1017): first pattern that matches wins, the missing unit of
pattern 1 defaults to `"mg"`, and no match at all yields `"Not specified"`. -/
def extractDosage (d t : List Char) : String :=
  match searchP1 d t with
  | some (a, u) => a ++ " " ++ u.getD "mg"
  | none =>
    match searchP2 d t with
    | some (a, u) => a ++ " " ++ u
    | none => "Not specified"

/-- The frequency vocabulary, in the source's scan order (line 1020-1021);
note the duplicated `"od"` from the source. -/
def freqCodes : List String :=
  ["1-0-0", "0-1-0", "0-0-1", "1-1-0", "1-0-1", "0-1-1", "1-1-1",
   "od", "hs", "od", "bd", "tds", "qid", "stat", "prn"]

/-- The frequency string built by `find_drugs_super_flexible` (source lines
1022-1026): the first code of the vocabulary that occurs word-bounded wins,
uppercased; otherwise `"As prescribed"`. -/
def extractFrequency (t : List Char) : String :=
  match freqCodes.find? (fun f => occursWholeWord f.toList t) with
  | some f => upperS f
  | none => "As prescribed"

/-! ## The drug reference table -/

/-- Metadata of one drug of the `DRUGS` table. -/
structure DrugInfo where
  cls : String
  generic : String
  deriving DecidableEq, Repr

/-- The `DRUGS` table of the source (lines 98-226), as an insertion-ordered
association list (`D` packs one row; long literals of pairs with anonymous
constructors elaborate poorly, so rows go through this helper). -/
def D (n c g : String) : String × DrugInfo := (n, { cls := c, generic := g })

/-- The `DRUGS` table body. -/
def DRUGS : List (String × DrugInfo) := [
  D "amoxicillin" "antibiotic" "amoxicillin",
  D "azithromycin" "antibiotic" "azithromycin",
  D "ciprofloxacin" "antibiotic" "ciprofloxacin",
  D "levofloxacin" "antibiotic" "levofloxacin",
  D "doxycycline" "antibiotic" "doxycycline",
  D "cephalexin" "antibiotic" "cephalexin",
  D "metronidazole" "antibiotic" "metronidazole",
  D "clindamycin" "antibiotic" "clindamycin",
  D "ceftriaxone" "antibiotic" "ceftriaxone",
  D "amoxicillin-clavulanic acid" "antibiotic" "amoxicillin-clavulanic acid",
  D "paracetamol" "analgesic" "acetaminophen",
  D "acetaminophen" "analgesic" "acetaminophen",
  D "ibuprofen" "nsaid" "ibuprofen",
  D "diclofenac" "nsaid" "diclofenac",
  D "naproxen" "nsaid" "naproxen",
  D "aspirin" "nsaid" "aspirin",
  D "tramadol" "painkiller" "tramadol",
  D "ketorolac" "nsaid" "ketorolac",
  D "celecoxib" "nsaid" "celecoxib",
  D "etoricoxib" "nsaid" "etoricoxib",
  D "morphine" "opioid" "morphine",
  D "cetirizine" "antihistamine" "cetirizine",
  D "loratadine" "antihistamine" "loratadine",
  D "fexofenadine" "antihistamine" "fexofenadine",
  D "diphenhydramine" "antihistamine" "diphenhydramine",
  D "levocetirizine" "antihistamine" "levocetirizine",
  D "chlorpheniramine maleate" "antihistamine" "chlorpheniramine",
  D "metformin" "antidiabetic" "metformin",
  D "glimepiride" "sulfonylurea" "glimepiride",
  D "sitagliptin" "dpp4_inhibitor" "sitagliptin",
  D "dapagliflozin" "sglt2_inhibitor" "dapagliflozin",
  D "pioglitazone" "thiazolidinedione" "pioglitazone",
  D "insulin regular" "insulin" "insulin",
  D "insulin glargine" "insulin" "insulin glargine",
  D "atorvastatin" "statin" "atorvastatin",
  D "rosuvastatin" "statin" "rosuvastatin",
  D "clopidogrel" "antiplatelet" "clopidogrel",
  D "metoprolol" "beta_blocker" "metoprolol",
  D "atenolol" "beta_blocker" "atenolol",
  D "amlodipine" "calcium_blocker" "amlodipine",
  D "losartan" "arb" "losartan",
  D "telmisartan" "arb" "telmisartan",
  D "enalapril" "ace_inhibitor" "enalapril",
  D "ramipril" "ace_inhibitor" "ramipril",
  D "carvedilol" "beta_blocker" "carvedilol",
  D "hydrochlorothiazide" "diuretic" "hydrochlorothiazide",
  D "furosemide" "diuretic" "furosemide",
  D "spironolactone" "diuretic" "spironolactone",
  D "omeprazole" "ppi" "omeprazole",
  D "pantoprazole" "ppi" "pantoprazole",
  D "rabeprazole" "ppi" "rabeprazole",
  D "esomeprazole" "ppi" "esomeprazole",
  D "ranitidine" "h2_blocker" "ranitidine",
  D "domperidone" "prokinetic" "domperidone",
  D "ondansetron" "antiemetic" "ondansetron",
  D "loperamide" "antidiarrheal" "loperamide",
  D "sertraline" "ssri" "sertraline",
  D "fluoxetine" "ssri" "fluoxetine",
  D "escitalopram" "ssri" "escitalopram",
  D "paroxetine" "ssri" "paroxetine",
  D "alprazolam" "benzodiazepine" "alprazolam",
  D "diazepam" "benzodiazepine" "diazepam",
  D "lorazepam" "benzodiazepine" "lorazepam",
  D "amitriptyline" "antidepressant" "amitriptyline",
  D "olanzapine" "antipsychotic" "olanzapine",
  D "risperidone" "antipsychotic" "risperidone",
  D "quetiapine" "antipsychotic" "quetiapine",
  D "haloperidol" "antipsychotic" "haloperidol",
  D "gabapentin" "anticonvulsant" "gabapentin",
  D "pregabalin" "anticonvulsant" "pregabalin",
  D "donepezil" "cholinesterase" "donepezil",
  D "montelukast" "leukotriene" "montelukast",
  D "salbutamol" "bronchodilator" "salbutamol",
  D "budesonide" "corticosteroid" "budesonide",
  D "formoterol" "laba" "formoterol",
  D "theophylline" "bronchodilator" "theophylline",
  D "dextromethorphan" "antitussive" "dextromethorphan",
  D "ipratropium" "anticholinergic" "ipratropium",
  D "vitamin d3" "vitamin" "cholecalciferol",
  D "vitamin b12" "vitamin" "cobalamin",
  D "folic acid" "vitamin" "folic acid",
  D "calcium carbonate" "mineral" "calcium",
  D "iron folic acid" "supplement" "iron",
  D "multivitamin" "supplement" "multivitamin",
  D "fluconazole" "antifungal" "fluconazole",
  D "itraconazole" "antifungal" "itraconazole",
  D "ketoconazole" "antifungal" "ketoconazole",
  D "clotrimazole" "antifungal" "clotrimazole",
  D "prednisolone" "corticosteroid" "prednisolone",
  D "dexamethasone" "corticosteroid" "dexamethasone",
  D "hydrocortisone" "corticosteroid" "hydrocortisone",
  D "acyclovir" "antiviral" "acyclovir",
  D "oseltamivir" "antiviral" "oseltamivir",
  D "tenofovir" "antiviral" "tenofovir",
  D "remdesivir" "antiviral" "remdesivir",
  D "levothyroxine" "thyroid" "levothyroxine",
  D "tamsulosin" "alpha_blocker" "tamsulosin",
  D "finasteride" "5ari" "finasteride",
  D "sildenafil" "pde5_inhibitor" "sildenafil",
  D "misoprostol" "prostaglandin" "misoprostol",
  D "tranexamic acid" "antifibrinolytic" "tranexamic acid",
  D "warfarin" "anticoagulant" "warfarin"]

/-- One entry of the list returned by `find_drugs_super_flexible`. -/
structure DrugEntry where
  name : String
  dosage : String
  frequency : String
  cls : String
  generic : String
  deriving DecidableEq, Repr

/-- Build the dict appended for a found drug (source lines 1028-1034). -/
def mkEntry (t : List Char) (nm : String) (info : DrugInfo) : DrugEntry :=
  { name := nm
    dosage := extractDosage (lowerL nm.toList) t
    frequency := extractFrequency t
    cls := info.cls
    generic := info.generic }

/-- `find_drugs_super_flexible` (source lines 977-1037).  The loop walks the
`DRUGS` table in order; the `seen` set never fires because dict keys are
unique, so the translation is a `filterMap` over the table. -/
def find_drugs_super_flexible (text : String) : List DrugEntry :=
  if text = "" then []
  else
    DRUGS.filterMap (fun p =>
      if foundDrug (lowerL p.1.toList) (lowerL text.toList) then
        some (mkEntry (lowerL text.toList) p.1 p.2)
      else none)

/-! ## Dict primitives

Python dicts with unique keys, as insertion-ordered association lists. -/

/-- Python `dict.get(k)` / `dict.get(k, default-absent)`. -/
def dictGet {α β : Type} [BEq α] (m : List (α × β)) (k : α) : Option β :=
  (m.find? (fun kv => kv.1 == k)).map (fun kv => kv.2)

/-- Python `d[k] = v`: replace in place when the key exists, else append. -/
def dictPut {α β : Type} [BEq α] (m : List (α × β)) (k : α) (v : β) : List (α × β) :=
  if (m.find? (fun kv => kv.1 == k)).isSome then
    m.map (fun kv => if kv.1 == k then (k, v) else kv)
  else m ++ [(k, v)]

/-! ## The interaction table -/

/-- One value of the `INTERACTIONS` table. -/
structure Inter where
  severity : String
  effect : String
  deriving DecidableEq, Repr

/-- Pack one row of the `INTERACTIONS` literal. -/
def I (a b sev eff : String) : (String × String) × Inter :=
  ((a, b), { severity := sev, effect := eff })

/-- The `INTERACTIONS` dict literal of the source (lines 231-284), before the
reverse-pair population. -/
def INTERACTIONS_base : List ((String × String) × Inter) := [
  I "aspirin" "ibuprofen" "high" "GI bleeding risk, reduced efficacy",
  I "aspirin" "diclofenac" "high" "Increased GI ulcer risk",
  I "ibuprofen" "metoprolol" "moderate" "Reduced BP control",
  I "diclofenac" "losartan" "high" "Acute kidney injury risk",
  I "naproxen" "enalapril" "high" "Reduced antihypertensive effect",
  I "ketorolac" "furosemide" "high" "Acute renal failure",
  I "azithromycin" "atorvastatin" "moderate" "Increased statin toxicity",
  I "ciprofloxacin" "theophylline" "moderate" "Increased theophylline levels",
  I "doxycycline" "calcium carbonate" "high" "Reduced doxycycline absorption",
  I "metronidazole" "alcohol" "high" "Disulfiram-like reaction",
  I "cephalexin" "warfarin" "moderate" "Increased bleeding risk",
  I "atorvastatin" "clarithromycin" "high" "Statin myopathy risk",
  I "clopidogrel" "omeprazole" "high" "Reduced antiplatelet effect",
  I "metoprolol" "verapamil" "high" "Severe bradycardia risk",
  I "amlodipine" "atorvastatin" "moderate" "Increased statin levels",
  I "losartan" "potassium supplements" "high" "Hyperkalemia",
  I "enalapril" "spironolactone" "high" "Hyperkalemia risk",
  I "ramipril" "nsaid" "high" "Acute kidney injury",
  I "metformin" "prednisolone" "high" "Poor glucose control",
  I "metformin" "contrast dye" "high" "Lactic acidosis risk",
  I "glimepiride" "nsaid" "moderate" "Severe hypoglycemia",
  I "sitagliptin" "ace inhibitor" "moderate" "Increased hypoglycemia risk",
  I "omeprazole" "clopidogrel" "high" "Reduced clopidogrel effect",
  I "pantoprazole" "iron folic acid" "moderate" "Reduced iron absorption",
  I "ranitidine" "ketoconazole" "high" "Reduced antifungal effect",
  I "ondansetron" "tramadol" "moderate" "Serotonin syndrome risk",
  I "sertraline" "tramadol" "high" "Serotonin syndrome",
  I "fluoxetine" "warfarin" "high" "Increased bleeding risk",
  I "escitalopram" "alprazolam" "moderate" "CNS depression",
  I "alprazolam" "morphine" "high" "Respiratory depression",
  I "diazepam" "alcohol" "high" "Severe CNS depression",
  I "amitriptyline" "nsaid" "moderate" "GI bleeding risk",
  I "olanzapine" "carbamazepine" "moderate" "Reduced olanzapine effect",
  I "salbutamol" "metoprolol" "high" "Bronchospasm, reduced bronchodilation",
  I "theophylline" "erythromycin" "high" "Theophylline toxicity",
  I "budesonide" "live vaccines" "high" "Vaccine ineffectiveness",
  I "warfarin" "aspirin" "high" "Severe bleeding risk",
  I "warfarin" "nsaid" "high" "GI bleeding",
  I "warfarin" "azithromycin" "high" "Increased INR",
  I "paracetamol" "warfarin" "moderate" "Increased bleeding risk",
  I "vitamin d3" "calcium carbonate" "low" "Synergistic - appropriate",
  I "iron folic acid" "tetracycline" "high" "Reduced antibiotic absorption",
  I "fluconazole" "warfarin" "high" "Increased INR",
  I "prednisolone" "nsaid" "high" "GI ulcer risk",
  I "levothyroxine" "iron folic acid" "high" "Reduced thyroid hormone absorption",
  I "sildenafil" "nitrates" "high" "Severe hypotension",
  I "tramadol" "ssri" "high" "Serotonin syndrome risk",
  I "morphine" "benzodiazepine" "high" "Respiratory depression",
  I "diclofenac" "ace inhibitor" "high" "Acute renal failure",
  I "ketorolac" "metoprolol" "moderate" "Reduced BP control",
  I "celecoxib" "warfarin" "high" "Increased bleeding",
  I "etoricoxib" "losartan" "high" "Kidney damage risk"]

/-- The load-time reverse-pair population (source lines 286-288):
`for (d1, d2), info in list(INTERACTIONS.items()): INTERACTIONS[(d2, d1)] = info`,
iterating over a snapshot of the original table. -/
def INTERACTIONS : List ((String × String) × Inter) :=
  INTERACTIONS_base.foldl (fun m kv => dictPut m (kv.1.2, kv.1.1) kv.2) INTERACTIONS_base

/-! ## Alternatives and conditions -/

/-- Pack one row of the `ALTERNATIVES` literal. -/
def A (n : String) (alts : List String) : String × List String := (n, alts)

/-- The `ALTERNATIVES` table of the source (lines 293-329). -/
def ALTERNATIVES : List (String × List String) := [
  A "aspirin" ["paracetamol", "ibuprofen", "diclofenac"],
  A "ibuprofen" ["paracetamol", "naproxen", "diclofenac", "etoricoxib"],
  A "diclofenac" ["ibuprofen", "naproxen", "celecoxib"],
  A "paracetamol" ["ibuprofen", "aspirin", "tramadol"],
  A "atorvastatin" ["rosuvastatin"],
  A "rosuvastatin" ["atorvastatin"],
  A "metformin" ["sitagliptin", "dapagliflozin", "pioglitazone"],
  A "glimepiride" ["sitagliptin", "dapagliflozin"],
  A "omeprazole" ["pantoprazole", "esomeprazole", "rabeprazole"],
  A "pantoprazole" ["omeprazole", "esomeprazole"],
  A "prednisolone" ["dexamethasone", "hydrocortisone"],
  A "dexamethasone" ["prednisolone", "hydrocortisone"],
  A "metoprolol" ["atenolol", "carvedilol"],
  A "atenolol" ["metoprolol", "carvedilol"],
  A "losartan" ["telmisartan", "enalapril", "ramipril"],
  A "telmisartan" ["losartan", "enalapril"],
  A "enalapril" ["ramipril", "losartan", "telmisartan"],
  A "sertraline" ["fluoxetine", "escitalopram", "paroxetine"],
  A "fluoxetine" ["sertraline", "escitalopram"],
  A "alprazolam" ["diazepam", "lorazepam"],
  A "diazepam" ["alprazolam", "lorazepam"],
  A "amoxicillin" ["cephalexin", "azithromycin"],
  A "azithromycin" ["amoxicillin", "doxycycline"],
  A "ciprofloxacin" ["levofloxacin", "ceftriaxone"],
  A "fluconazole" ["itraconazole", "ketoconazole"],
  A "warfarin" ["clopidogrel"],
  A "clopidogrel" ["warfarin"],
  A "salbutamol" ["formoterol", "theophylline"],
  A "amlodipine" ["diltiazem"],
  A "furosemide" ["hydrochlorothiazide", "spironolactone"],
  A "tramadol" ["paracetamol", "ibuprofen", "morphine"],
  A "morphine" ["tramadol"],
  A "ondansetron" ["domperidone"],
  A "cetirizine" ["loratadine", "fexofenadine"],
  A "acyclovir" ["oseltamivir"]]

/-- One value of the `CONDITIONS` table. -/
structure CondInfo where
  avoid : List String
  reason : String
  deriving DecidableEq, Repr

/-- Pack one row of the `CONDITIONS` literal. -/
def C (n : String) (av : List String) (r : String) : String × CondInfo :=
  (n, { avoid := av, reason := r })

/-- The `CONDITIONS` table of the source (lines 331-340). -/
def CONDITIONS : List (String × CondInfo) := [
  C "diabetes" ["prednisolone", "dexamethasone", "corticosteroid"] "Raises blood sugar",
  C "hypertension" ["nsaid", "decongestants"] "Raises blood pressure",
  C "asthma" ["aspirin", "nsaid", "beta_blocker"] "May trigger attack",
  C "kidney disease" ["nsaid", "metformin", "ace_inhibitor"] "Kidney damage",
  C "liver disease" ["paracetamol", "acetaminophen"] "Liver toxicity",
  C "bleeding disorder" ["nsaid", "aspirin", "warfarin"] "Increased bleeding",
  C "heart failure" ["nsaid", "calcium_blocker"] "May worsen condition",
  C "pregnancy" ["warfarin", "ace_inhibitor", "finasteride"] "Birth defects"]

/-! ## Free-text drug-list parsing and the pairwise interaction loop -/

/-- Python `re.split` on the class `[,\n;]`: split at every separator
occurrence, keeping empty fields. -/
def splitSepsL : List Char → List (List Char)
  | [] => [[]]
  | c :: cs =>
    if c == ',' || c == '\n' || c == ';' then [] :: splitSepsL cs
    else
      match splitSepsL cs with
      | [] => [[c]]
      | g :: gs => (c :: g) :: gs

/-- The drug-list parsing of the checker pages (source lines 1215 and 1338):
`[d.strip().lower() for d in re.split(r'[,\n;]', drugs_text) if d.strip()]`. -/
def parse_drug_list (s : String) : List String :=
  (splitSepsL s.toList).filterMap (fun d =>
    let st := stripL d
    if st.isEmpty then none else some (String.mk (lowerL st)))

/-- The pairwise interaction loop (source lines 1220-1225): for each index
`i` and each later occurrence `d2`, look up `(d1, d2)` in `INTERACTIONS`. -/
def pair_hits : List String → List (String × String × Inter)
  | [] => []
  | d :: rest =>
    rest.filterMap (fun e => (dictGet INTERACTIONS (d, e)).map (fun v => (d, e, v)))
      ++ pair_hits rest

/-! ## The safety-check page -/

/-- One warning dict of the safety-check page. -/
structure SafetyWarning where
  drug : String
  condition : String
  reason : String
  deriving DecidableEq, Repr

/-- The avoid-list of a condition: `CONDITIONS.get(cond, {}).get("avoid", [])`. -/
def avoidOf (c : String) : List String :=
  match dictGet CONDITIONS c with
  | some i => i.avoid
  | none => []

/-- `CONDITIONS.get(cond, {}).get("reason", "Unknown risk")`. -/
def reasonOf (c : String) : String :=
  match dictGet CONDITIONS c with
  | some i => i.reason
  | none => "Unknown risk"

/-- The flagging test of the safety-check page (source line 1346):
`drug in avoid or d_class in avoid`, where
`d_class = DRUGS.get(drug, {}).get("class")` is `None` for unknown drugs and
`None in avoid` is false. -/
def flaggedB (d c : String) : Bool :=
  (avoidOf c).contains d ||
    (match dictGet DRUGS d with
     | some i => (avoidOf c).contains i.cls
     | none => false)

/-- The warning accumulation of the safety-check page (source lines
1341-1351), over an already-parsed drug list and the selected conditions. -/
def safety_warnings (drugs conds : List String) : List SafetyWarning :=
  drugs.flatMap (fun d =>
    conds.filterMap (fun c =>
      if flaggedB d c then some { drug := d, condition := c, reason := reasonOf c }
      else none))

/-! ## Age banding -/

/-- The age-band expression of the source (lines 1140 and 1262):
`"child" if age < 18 else "elderly" if age >= 65 else "adult"`. -/
def age_group (age : Int) : String :=
  if age < 18 then "child" else if 65 ≤ age then "elderly" else "adult"

/-! ## The OCR adapter -/

/-- A Python value that is either `None` or a string. -/
inductive PyVal where
  | noneV : PyVal
  | str : String → PyVal
  deriving DecidableEq, Repr

/-- Python truthiness of a `None`-or-string value. -/
def truthy : PyVal → Bool
  | PyVal.noneV => false
  | PyVal.str s => !(s == "")

/-- Oracle model of the OCR environment: engine availability flags and raw
engine outputs.  `none` stands for an exception raised by the engine call
inside the wrapper's `try` block; `some s` for a returned string. -/
structure OcrEnv where
  easyAvail : Bool
  readerSome : Bool
  easyRaw : Option String
  tessAvail : Bool
  tessRaw1 : Option String
  tessRaw2 : Option String

/-- `extract_text_easyocr` (source lines 887-898): returns `""` when the
engine is unavailable or raises, else the stripped engine text. -/
def extract_text_easyocr (env : OcrEnv) : String :=
  if !(env.easyAvail && env.readerSome) then ""
  else
    match env.easyRaw with
    | none => ""
    | some raw => stripS raw

/-- `extract_text_tesseract_enhanced` (source lines 935-954): `None` when the
engine is unavailable, raises, or both attempts come back blank; otherwise the
first non-blank stripped attempt. -/
def extract_text_tesseract_enhanced (env : OcrEnv) : PyVal :=
  if !env.tessAvail then PyVal.noneV
  else
    match env.tessRaw1 with
    | none => PyVal.noneV
    | some t1 =>
      if stripS t1 ≠ "" then PyVal.str (stripS t1)
      else
        match env.tessRaw2 with
        | none => PyVal.noneV
        | some t2 => if stripS t2 ≠ "" then PyVal.str (stripS t2) else PyVal.noneV

/-- `extract_text_with_ocr` (source lines 959-975): EasyOCR first, Tesseract
as fallback, `""` when neither yields text. -/
def extract_text_with_ocr (env : OcrEnv) : PyVal :=
  if env.easyAvail && env.readerSome && !(extract_text_easyocr env == "") then
    PyVal.str (extract_text_easyocr env)
  else if env.tessAvail && truthy (extract_text_tesseract_enhanced env) then
    extract_text_tesseract_enhanced env
  else PyVal.str ""

/-! ## Concrete values used by witnesses -/

/-- The single entry the matcher produces for `"Take aspirin 100mg od, aspirin again"`. -/
def aspirinEntry : DrugEntry :=
  { name := "aspirin", dosage := "100 mg", frequency := "OD",
    cls := "nsaid", generic := "aspirin" }

/-- An OCR environment with no engine available. -/
def ocrEnvEmpty : OcrEnv :=
  { easyAvail := false, readerSome := false, easyRaw := none,
    tessAvail := false, tessRaw1 := none, tessRaw2 := none }

/-! ## Theorems -/

/-- C3: for every integer age, the band is `child` below 18, `elderly` from 65
on, and `adult` otherwise; in particular 10 is a child, 64 an adult, 65
elderly. -/
theorem C3_age_band :
    (∀ age : Int,
      (age < 18 → age_group age = "child") ∧
      (65 ≤ age → age_group age = "elderly") ∧
      (18 ≤ age → age < 65 → age_group age = "adult")) ∧
    age_group 10 = "child" ∧ age_group 64 = "adult" ∧ age_group 65 = "elderly" := by
  refine ⟨fun age => ⟨fun h => ?_, fun h => ?_, fun h1 h2 => ?_⟩, by decide, by decide, by decide⟩
  · simp [age_group, h]
  · have : ¬ age < 18 := by omega
    simp [age_group, this, h]
  · have h3 : ¬ age < 18 := by omega
    have h4 : ¬ 65 ≤ age := by omega
    simp [age_group, h3, h4]

/-- Witness for C3 at the concrete ages 17, 70 and 30. -/
theorem C3_age_band_witness :
    age_group 17 = "child" ∧ age_group 70 = "elderly" ∧ age_group 30 = "adult" :=
  ⟨(C3_age_band.1 17).1 (by decide), (C3_age_band.1 70).2.1 (by decide),
    (C3_age_band.1 30).2.2 (by decide) (by decide)⟩

/-- C7: the pairwise interaction check on aspirin and ibuprofen, in either
input order, returns exactly one result, of severity `high`. -/
theorem C7_aspirin_ibuprofen :
    pair_hits ["aspirin", "ibuprofen"] =
      [("aspirin", "ibuprofen",
        { severity := "high", effect := "GI bleeding risk, reduced efficacy" })] ∧
    pair_hits ["ibuprofen", "aspirin"] =
      [("ibuprofen", "aspirin",
        { severity := "high", effect := "GI bleeding risk, reduced efficacy" })] := by
  exact ⟨by decide, by decide⟩

/-- C8: the alternatives table is directional: amlodipine lists diltiazem,
while diltiazem has no entry at all. -/
theorem C8_alternatives_directional :
    dictGet ALTERNATIVES "amlodipine" = some ["diltiazem"] ∧
    dictGet ALTERNATIVES "diltiazem" = none := by
  exact ⟨by decide, by decide⟩

/-- C10: the checker's free-text parsing splits on commas, newlines and
semicolons, keeps duplicates, and the pairwise loop then reports the
aspirin-ibuprofen interaction twice for `"aspirin, ibuprofen, aspirin"`. -/
theorem C10_duplicates_paired_repeatedly :
    parse_drug_list "aspirin, ibuprofen, aspirin" = ["aspirin", "ibuprofen", "aspirin"] ∧
    parse_drug_list "  Aspirin ,; ibuprofen \n naproxen;" = ["aspirin", "ibuprofen", "naproxen"] ∧
    pair_hits (parse_drug_list "aspirin, ibuprofen, aspirin") =
      [("aspirin", "ibuprofen",
        { severity := "high", effect := "GI bleeding risk, reduced efficacy" }),
       ("ibuprofen", "aspirin",
        { severity := "high", effect := "GI bleeding risk, reduced efficacy" })] := by
  refine ⟨by decide, by decide, by decide⟩

/-- C2 counterexample: after the reverse-pair population the two orderings of
the clopidogrel-omeprazole pair are both present but carry different effect
texts (the source enters both orderings with different texts, and the
population loop swaps them), so the looked-up entries are not identical. -/
theorem C2_counterexample :
    dictGet INTERACTIONS ("clopidogrel", "omeprazole") =
      some { severity := "high", effect := "Reduced clopidogrel effect" } ∧
    dictGet INTERACTIONS ("omeprazole", "clopidogrel") =
      some { severity := "high", effect := "Reduced antiplatelet effect" } ∧
    dictGet INTERACTIONS ("clopidogrel", "omeprazole") ≠
      dictGet INTERACTIONS ("omeprazole", "clopidogrel") := by
  refine ⟨by decide, by decide, by decide⟩

/-- C2 amended: for every key pair (A,B) of the populated interaction table,
(B,A) is also present and carries the same severity; the full entries (effect
text included) are identical for every pair except the two orderings of
(clopidogrel, omeprazole), whose effect texts differ. -/
theorem C2_symmetry_amended :
    ∀ kv ∈ INTERACTIONS,
      (dictGet INTERACTIONS (kv.1.2, kv.1.1)).map Inter.severity = some kv.2.severity ∧
      (kv.1 = ("clopidogrel", "omeprazole") ∨ kv.1 = ("omeprazole", "clopidogrel") ∨
        dictGet INTERACTIONS (kv.1.2, kv.1.1) = some kv.2) := by
  decide

/-- Witness for C2 at the aspirin-ibuprofen entry. -/
theorem C2_symmetry_amended_witness :
    (dictGet INTERACTIONS ("ibuprofen", "aspirin")).map Inter.severity = some "high" :=
  (C2_symmetry_amended
    (("aspirin", "ibuprofen"),
      { severity := "high", effect := "GI bleeding risk, reduced efficacy" })
    (by decide)).1

/-- A whole-word regex hit is in particular a literal hit. -/
theorem occursWholeWord_false_of_anywhere (pat t : List Char)
    (h : occursAnywhere pat t = false) : occursWholeWord pat t = false := by
  unfold occursAnywhere at h
  unfold occursWholeWord
  rw [List.any_eq_false] at h ⊢
  intro i hi
  have hi2 := h i hi
  simp only [Bool.not_eq_true] at hi2
  simp [wordOccursAt, hi2]

/-- A word-start regex hit is in particular a literal hit. -/
theorem occursFrontWord_false_of_anywhere (pat t : List Char)
    (h : occursAnywhere pat t = false) : occursFrontWord pat t = false := by
  unfold occursAnywhere at h
  unfold occursFrontWord
  rw [List.any_eq_false] at h ⊢
  intro i hi
  have hi2 := h i hi
  simp only [Bool.not_eq_true] at hi2
  simp [hi2]

/-- The three-pattern presence test of the matcher collapses to the bare
substring test: the third pattern subsumes the first two. -/
theorem foundDrug_eq_anywhere (pat t : List Char) :
    foundDrug pat t = occursAnywhere pat t := by
  unfold foundDrug
  cases h : occursAnywhere pat t with
  | false =>
    rw [occursWholeWord_false_of_anywhere pat t h,
      occursFrontWord_false_of_anywhere pat t h]
    rfl
  | true => simp

/-- The names of a `filterMap` that keeps a row `(k, i)` exactly when
`cond k` fires and builds an entry named `k` are the kept keys, in order. -/
theorem names_aux (cond : String → Bool) (ent : String → DrugInfo → DrugEntry)
    (hent : ∀ k i, (ent k i).name = k) :
    ∀ L : List (String × DrugInfo),
      ((L.filterMap (fun p => if cond p.1 then some (ent p.1 p.2) else none)).map
        DrugEntry.name)
        = (L.map Prod.fst).filter cond := by
  intro L
  induction L with
  | nil => rfl
  | cons p L ih =>
    cases h : cond p.1 with
    | false => simpa [List.filterMap_cons, List.filter_cons, h] using ih
    | true => simpa [List.filterMap_cons, List.filter_cons, h, hent] using ih

/-- Closed form for the names reported by `find_drugs_super_flexible`. -/
theorem find_drugs_names (text : String) :
    (find_drugs_super_flexible text).map DrugEntry.name =
      if text = "" then []
      else (DRUGS.map Prod.fst).filter
        (fun k => foundDrug (lowerL k.toList) (lowerL text.toList)) := by
  unfold find_drugs_super_flexible
  split
  · rfl
  · exact names_aux (fun k => foundDrug (lowerL k.toList) (lowerL text.toList))
      (mkEntry (lowerL text.toList)) (fun k i => rfl) DRUGS

/-- The reference table lists each drug name once. -/
theorem drug_keys_nodup : (DRUGS.map Prod.fst).Nodup := by decide

/-- Every name of the reference table is a nonempty string. -/
theorem drug_keys_ne_nil : ∀ nm ∈ DRUGS.map Prod.fst, nm.toList ≠ [] := by decide

/-- C1 counterexample: in the text `"aspirinic"` the name `aspirin` occurs
only as a proper substring of a larger token, yet the matcher reports it. -/
theorem C1_counterexample :
    (find_drugs_super_flexible "aspirinic").map DrugEntry.name = ["aspirin"] ∧
    occursWholeWord (lowerL "aspirin".toList) (lowerL "aspirinic".toList) = false := by
  exact ⟨by decide, by decide⟩

/-- C1 amended: the matcher reports a reference drug for a text exactly when
the name occurs case-insensitively as a substring of the text; no word
boundary is required (the matcher's third pattern subsumes the other two). -/
theorem C1_substring_matching :
    ∀ (text nm : String), nm ∈ DRUGS.map Prod.fst →
      (nm ∈ (find_drugs_super_flexible text).map DrugEntry.name ↔
        occursAnywhere (lowerL nm.toList) (lowerL text.toList) = true) := by
  intro text nm hmem
  rw [find_drugs_names]
  split
  · rename_i htext
    constructor
    · intro h
      exact absurd h (List.not_mem_nil nm)
    · intro h
      exfalso
      cases hh : nm.toList with
      | nil => exact drug_keys_ne_nil nm hmem hh
      | cons c cs =>
        rw [htext] at h
        simp only [hh, lowerL, List.map_cons] at h
        have : occursAnywhere (asciiLower c :: List.map asciiLower cs) [] = false := rfl
        simp [String.toList] at h
        rw [this] at h
        exact Bool.false_ne_true h
  · rw [List.mem_filter]
    constructor
    · rintro ⟨-, h⟩
      rwa [foundDrug_eq_anywhere] at h
    · intro h
      refine ⟨hmem, ?_⟩
      rwa [foundDrug_eq_anywhere]

/-- Witness for C1 at a text embedding `aspirin` inside a larger token. -/
theorem C1_substring_matching_witness :
    "aspirin" ∈ (find_drugs_super_flexible "misaspirinmix").map DrugEntry.name :=
  (C1_substring_matching "misaspirinmix" "aspirin" (by decide)).mpr (by decide)

/-- C4: the matcher reports each reference drug at most once for any text,
and on `"Take aspirin 100mg od, aspirin again"` it returns exactly the one
aspirin entry with dosage `"100 mg"` and frequency `"OD"`. -/
theorem C4_report_once :
    (∀ text : String, ((find_drugs_super_flexible text).map DrugEntry.name).Nodup) ∧
    find_drugs_super_flexible "Take aspirin 100mg od, aspirin again" = [aspirinEntry] := by
  constructor
  · intro text
    rw [find_drugs_names]
    split
    · exact List.nodup_nil
    · exact drug_keys_nodup.filter _
  · decide

/-- C5: for every entry the matcher produces, the dosage field comes from the
first of the two dose patterns that matches anywhere in the lowered text (the
unit of pattern 1 defaulting to `mg` when its optional group is absent),
`"Not specified"` when neither matches; and the frequency field is the
uppercase of the first vocabulary code occurring word-bounded in the text, or
`"As prescribed"` when none occurs. -/
theorem C5_dosage_frequency_fields :
    ∀ (text : String) (e : DrugEntry), e ∈ find_drugs_super_flexible text →
      (searchP1 (lowerL e.name.toList) (lowerL text.toList) = none →
        searchP2 (lowerL e.name.toList) (lowerL text.toList) = none →
        e.dosage = "Not specified") ∧
      (∀ a u, searchP1 (lowerL e.name.toList) (lowerL text.toList) = some (a, some u) →
        e.dosage = a ++ " " ++ u) ∧
      (∀ a, searchP1 (lowerL e.name.toList) (lowerL text.toList) = some (a, none) →
        e.dosage = a ++ " " ++ "mg") ∧
      (∀ a u, searchP1 (lowerL e.name.toList) (lowerL text.toList) = none →
        searchP2 (lowerL e.name.toList) (lowerL text.toList) = some (a, u) →
        e.dosage = a ++ " " ++ u) ∧
      ((∀ f ∈ freqCodes, occursWholeWord f.toList (lowerL text.toList) = false) →
        e.frequency = "As prescribed") ∧
      (∀ f, freqCodes.find? (fun f => occursWholeWord f.toList (lowerL text.toList)) = some f →
        e.frequency = upperS f) := by
  intro text e hmem
  unfold find_drugs_super_flexible at hmem
  split at hmem
  · exact absurd hmem (List.not_mem_nil e)
  · obtain ⟨p, hp, hpe⟩ := List.mem_filterMap.mp hmem
    cases hc : foundDrug (lowerL p.1.toList) (lowerL text.toList) with
    | false => rw [hc] at hpe; exact absurd hpe (by simp)
    | true =>
      rw [hc] at hpe
      simp only [if_pos] at hpe
      obtain rfl := Option.some.inj hpe
      refine ⟨fun h1 h2 => ?_, fun a u h1 => ?_, fun a h1 => ?_,
        fun a u h1 h2 => ?_, fun hall => ?_, fun f hf => ?_⟩
      · simp only [mkEntry, String.toList] at h1 h2 ⊢
        simp [extractDosage, h1, h2]
      · simp only [mkEntry, String.toList] at h1 ⊢
        simp [extractDosage, h1]
      · simp only [mkEntry, String.toList] at h1 ⊢
        simp [extractDosage, h1]
      · simp only [mkEntry, String.toList] at h1 h2 ⊢
        simp [extractDosage, h1, h2]
      · have hfind : freqCodes.find?
            (fun f => occursWholeWord f.toList (lowerL text.toList)) = none := by
          rw [List.find?_eq_none]
          intro f hf
          have hz := hall f hf
          simp only [String.toList] at hz
          simp [hz]
        simp only [String.toList] at hfind
        simp only [mkEntry]
        simp [extractFrequency, hfind]
      · simp only [String.toList] at hf
        simp only [mkEntry]
        simp [extractFrequency, hf]

/-- Witness for C5: the aspirin entry of `"aspirin 100mg od"`, whose dosage
comes from pattern 1 with an explicit `mg` unit. -/
theorem C5_dosage_frequency_fields_witness :
    aspirinEntry ∈ find_drugs_super_flexible "aspirin 100mg od" ∧
    aspirinEntry.dosage = "100" ++ " " ++ "mg" :=
  ⟨by decide,
    (C5_dosage_frequency_fields "aspirin 100mg od" aspirinEntry (by decide)).2.1
      "100" "mg" (by decide)⟩

/-- The safety-page flag test, unfolded to the specification's phrasing. -/
theorem flagged_iff (d c : String) :
    flaggedB d c = true ↔
      (d ∈ avoidOf c ∨ ∃ info, dictGet DRUGS d = some info ∧ info.cls ∈ avoidOf c) := by
  unfold flaggedB
  cases h : dictGet DRUGS d with
  | none => simp [h, List.elem_iff]
  | some i => simp [h, List.elem_iff]

/-- C6: the safety check flags a (drug, condition) pair exactly when the exact
drug name, or the drug's class when the drug is in `DRUGS`, appears in the
condition's avoid-list; ibuprofen with asthma is flagged through its class
`nsaid` although `ibuprofen` is not literally in asthma's avoid-list. -/
theorem C6_condition_flagging :
    (∀ (drugs conds : List String) (d c : String),
      ((safety_warnings drugs conds).any
          (fun w => w.drug == d && w.condition == c) = true ↔
        d ∈ drugs ∧ c ∈ conds ∧
          (d ∈ avoidOf c ∨ ∃ info, dictGet DRUGS d = some info ∧ info.cls ∈ avoidOf c))) ∧
    safety_warnings ["ibuprofen"] ["asthma"] =
      [{ drug := "ibuprofen", condition := "asthma", reason := "May trigger attack" }] ∧
    dictGet DRUGS "ibuprofen" = some { cls := "nsaid", generic := "ibuprofen" } ∧
    avoidOf "asthma" = ["aspirin", "nsaid", "beta_blocker"] ∧
    "ibuprofen" ∉ avoidOf "asthma" := by
  refine ⟨?_, by decide, by decide, by decide, by decide⟩
  intro drugs conds d c
  unfold safety_warnings
  rw [List.any_eq_true]
  constructor
  · rintro ⟨w, hw, hwdc⟩
    rw [List.mem_flatMap] at hw
    obtain ⟨da, hda, hw2⟩ := hw
    rw [List.mem_filterMap] at hw2
    obtain ⟨ca, hca, heq⟩ := hw2
    cases hfl : flaggedB da ca with
    | false => rw [hfl] at heq; exact absurd heq (by simp)
    | true =>
      rw [hfl] at heq
      simp only [if_pos] at heq
      obtain rfl := Option.some.inj heq
      simp only [Bool.and_eq_true, beq_iff_eq] at hwdc
      obtain ⟨hd, hc⟩ := hwdc
      subst hd
      subst hc
      exact ⟨hda, hca, (flagged_iff da ca).mp hfl⟩
  · rintro ⟨hd, hc, hflag⟩
    refine ⟨{ drug := d, condition := c, reason := reasonOf c }, ?_, by simp⟩
    rw [List.mem_flatMap]
    refine ⟨d, hd, ?_⟩
    rw [List.mem_filterMap]
    exact ⟨c, hc, by rw [if_pos ((flagged_iff d c).mpr hflag)]⟩

/-- When the EasyOCR guard fails, the EasyOCR wrapper returns the empty string. -/
theorem easyocr_of_guard_false (env : OcrEnv)
    (h : (env.easyAvail && env.readerSome) = false) :
    extract_text_easyocr env = "" := by
  unfold extract_text_easyocr
  rw [h]
  rfl

/-- When Tesseract is unavailable, the Tesseract wrapper returns `None`. -/
theorem tess_of_unavailable (env : OcrEnv) (h : env.tessAvail = false) :
    extract_text_tesseract_enhanced env = PyVal.noneV := by
  unfold extract_text_tesseract_enhanced
  rw [h]
  rfl

/-- C9: the unified OCR adapter always returns a string (never `None`), and
returns the empty string exactly when neither engine produced non-empty text. -/
theorem C9_ocr_adapter_total :
    ∀ env : OcrEnv,
      (∃ s, extract_text_with_ocr env = PyVal.str s) ∧
      (extract_text_with_ocr env = PyVal.str "" ↔
        (extract_text_easyocr env = "" ∧
          ∀ s, extract_text_tesseract_enhanced env = PyVal.str s → s = "")) := by
  intro env
  unfold extract_text_with_ocr
  constructor
  · split_ifs with h1 h2
    · exact ⟨extract_text_easyocr env, rfl⟩
    · rw [Bool.and_eq_true] at h2
      cases ht : extract_text_tesseract_enhanced env with
      | noneV => rw [ht] at h2; exact absurd h2.2 (by simp [truthy])
      | str s => exact ⟨s, rfl⟩
    · exact ⟨"", rfl⟩
  · split_ifs with h1 h2
    · have hne : extract_text_easyocr env ≠ "" := by
        intro he
        rw [he] at h1
        simp at h1
      constructor
      · intro h
        exact absurd (PyVal.str.inj h) hne
      · rintro ⟨he, -⟩
        exact absurd he hne
    · rw [Bool.and_eq_true] at h2
      constructor
      · intro h
        rw [h] at h2
        exact absurd h2.2 (by simp [truthy])
      · rintro ⟨-, hall⟩
        exfalso
        cases ht : extract_text_tesseract_enhanced env with
        | noneV => rw [ht] at h2; exact absurd h2.2 (by simp [truthy])
        | str s =>
          rw [ht] at h2
          have hs := hall s ht
          subst hs
          exact absurd h2.2 (by simp [truthy])
    · constructor
      · intro _
        refine ⟨?_, ?_⟩
        · by_cases hg : (env.easyAvail && env.readerSome) = true
          · rw [Bool.and_eq_true] at hg
            by_contra hne
            exact h1 (by simp [hg.1, hg.2, hne])
          · exact easyocr_of_guard_false env (eq_false_of_ne_true hg)
        · intro s hs
          by_cases hta : env.tessAvail = true
          · rw [hs] at h2
            by_contra hsne
            exact h2 (by simp [hta, truthy, hsne])
          · have h0 := tess_of_unavailable env (eq_false_of_ne_true hta)
            rw [h0] at hs
            exact absurd hs (by simp)
      · intro _
        rfl

end PrescriptionAnalyzer

